import Mathlib

/-
  Verification development for the Lassa fever dashboard aggregator
  (src/main.py).  The Python/pandas pipeline is shallowly embedded:
  a data frame is a `List Row`, a pandas `NaN`/`NaT` entry is `none`,
  and every derived column and aggregate of `get_summary` is a Lean
  function over `List Row`.  The result of `pd.to_datetime(x,
  errors=coerce)` is kept abstract as `Option PDate`: a `PDate`
  records the calendar year (`.dt.year`), the ISO week
  (`.dt.isocalendar().week`) and a timestamp used only for ordering
  (`max` aggregation).  Python float arithmetic is modelled over `ℚ`
  with round-half-to-even, matching `round(x, 1)` and `round(x)`.
-/

namespace Lassa

/-- Result of a successful `pd.to_datetime` parse of a `Last_Update`
string: calendar year, ISO-8601 week number, and a timestamp giving
the chronological order used by the `max` aggregation. -/
structure PDate where
  year : Int
  isoWeek : Nat
  ts : Int
deriving DecidableEq, Repr

/-- One row of the input table after `pd.read_csv`.  A missing cell
(pandas `NaN`) is `none`; `lastUpdate` is the row value already taken
through `pd.to_datetime(..., errors=coerce)`, so an unparseable
`Last_Update` is `none` (pandas `NaT`). -/
structure Row where
  patientID : Option String
  age : Option ℚ
  sex : Option String
  outcome : Option String
  state : Option String
  lga : Option String
  caseStatus : Option String
  lastUpdate : Option PDate
deriving DecidableEq, Repr

/- ---------------------------------------------------------------
   String helpers modelling the pandas `.str` accessors used on the
   Sex column and the `YearWeek` construction.
   --------------------------------------------------------------- -/

/-- Python `str.zfill(2)`: left-pad with zeros to length 2 (the week
number is non-negative, so the sign handling of `zfill` never fires). -/
def zfill2 (s : String) : String :=
  if s.length < 2 then ⟨List.replicate (2 - s.length) '0' ++ s.data⟩ else s

/-- Characters of Python `str.strip()`: drop whitespace from both ends. -/
def stripChars (l : List Char) : List Char :=
  ((l.dropWhile Char.isWhitespace).reverse.dropWhile Char.isWhitespace).reverse

/-- Pandas `.str.strip()` on one entry. -/
def pyStrip (s : String) : String := ⟨stripChars s.data⟩

/-- Worker for Python `str.title()`: a letter that follows a letter is
lowercased, a letter that follows a non-letter is uppercased. -/
def titleAux : Bool → List Char → List Char
  | _, [] => []
  | prevCased, c :: cs =>
    if c.isAlpha then
      (if prevCased then c.toLower else c.toUpper) :: titleAux true cs
    else
      c :: titleAux false cs

/-- Pandas `.str.title()` on one entry. -/
def pyTitle (s : String) : String := ⟨titleAux false s.data⟩

/-- Pandas `.astype(str)` on one entry of the Sex column: a missing
value (`NaN`) prints as the three-letter string `nan`. -/
def sexAstypeStr : Option String → String
  | none => "nan"
  | some v => v

/-- The `.replace({...})` dictionary applied to the Sex column in
`get_summary` (src/main.py lines 91-97), applied after title-casing. -/
def genderReplace (v : String) : String :=
  if v = "M" then "Male"
  else if v = "F" then "Female"
  else if v = "Male." then "Male"
  else if v = "Female." then "Female"
  else if v = "nan" then "Other/Unknown"
  else v

/-- The derived `Gender` column (src/main.py lines 86-99):
`astype(str) → strip → title → replace`.  The trailing
`.fillna("Other/Unknown")` is the identity here because after
`astype(str)` the column holds no `NaN` entry. -/
def gender (sex : Option String) : String :=
  genderReplace (pyTitle (pyStrip (sexAstypeStr sex)))

/-- The helper `get_age_group` of src/main.py lines 73-81 applied via
`df[Age].apply(...)`; a `NaN` age (`pd.isna`) is `none`. -/
def get_age_group (age : Option ℚ) : String :=
  match age with
  | none => "Other/Unknown"
  | some a =>
    if a ≤ 14 then "0-14"
    else if a ≤ 49 then "15-49"
    else "50+"

/- ---------------------------------------------------------------
   The Year / Week / YearWeek derived columns (src/main.py 67-70).
   `df[Year] = df[Last_Update].dt.year` is an integer column when
   every row parsed, and a float column holding `NaN` as soon as one
   row is `NaT`; `astype(str)` then prints `2024` resp. `2024.0` and
   `nan`.  `isocalendar().week` is a nullable integer column whose
   missing entries print as `<NA>` under `astype(str)`.
   --------------------------------------------------------------- -/

/-- True when at least one row has an unparseable `Last_Update`
(pandas `NaT`), which makes the whole `Year` column float-typed. -/
def hasNaT (df : List Row) : Bool := df.any fun r => r.lastUpdate.isNone

/-- The derived `Year` column entry of one row: `none` models the
float `NaN` produced by `.dt.year` on a `NaT` entry. -/
def yearCol (r : Row) : Option Int := r.lastUpdate.map (·.year)

/-- Entry of `df[Year].astype(str)`: `nan` for a missing year, and the
year printed with a trailing `.0` when the column is float-typed
(that is, when any row of the table failed to parse). -/
def yearEntryStr (floatDtype : Bool) : Option PDate → String
  | none => "nan"
  | some d => if floatDtype then toString d.year ++ ".0" else toString d.year

/-- Entry of `df[Week].astype(str).str.zfill(2)`: the nullable-integer
missing value prints as `<NA>` (length 4, unchanged by `zfill`). -/
def weekEntryStr : Option PDate → String
  | none => "<NA>"
  | some d => zfill2 (toString d.isoWeek)

/-- The derived `YearWeek` column entry of one row (src/main.py line
70).  Note it is always a non-empty string, never `NaN`. -/
def yearWeek (df : List Row) (r : Row) : String :=
  yearEntryStr (hasNaT df) r.lastUpdate ++ "-W" ++ weekEntryStr r.lastUpdate

/- ---------------------------------------------------------------
   Python rounding, modelled exactly over ℚ: round-half-to-even.
   --------------------------------------------------------------- -/

/-- Python `round(q)`: round half to even, to an integer. -/
def pyRoundInt (q : ℚ) : ℤ :=
  if q - (⌊q⌋ : ℚ) < 1/2 then ⌊q⌋
  else if 1/2 < q - (⌊q⌋ : ℚ) then ⌊q⌋ + 1
  else if ⌊q⌋ % 2 = 0 then ⌊q⌋ else ⌊q⌋ + 1

/-- Python `round(q, 1)`: round half to even at one decimal place. -/
def pyRound1 (q : ℚ) : ℚ := ((pyRoundInt (q * 10) : ℚ)) / 10

/- ---------------------------------------------------------------
   Core metrics (src/main.py lines 101-113).
   --------------------------------------------------------------- -/

/-- `total_cases = len(df)` (also reported as `total_records`). -/
def total_cases (df : List Row) : Nat := df.length

/-- `confirmed = df[df[Case_Status] == Confirmed]`. -/
def confirmedRows (df : List Row) : List Row :=
  df.filter fun r => r.caseStatus = some "Confirmed"

/-- `confirmed_cases = len(confirmed)`. -/
def confirmed_cases (df : List Row) : Nat := (confirmedRows df).length

/-- `deaths`: confirmed rows with `Outcome == Deceased` (line 106). -/
def kpiDeaths (df : List Row) : Nat :=
  (confirmedRows df).countP fun r => r.outcome = some "Deceased"

/-- `recoveries`: confirmed rows with `Outcome == Discharged` (line 107). -/
def kpiRecoveries (df : List Row) : Nat :=
  (confirmedRows df).countP fun r => r.outcome = some "Discharged"

/-- `fatality_rate` (line 109). -/
def fatality_rate (df : List Row) : ℚ :=
  if confirmed_cases df > 0 then
    pyRound1 ((kpiDeaths df : ℚ) / (confirmed_cases df : ℚ) * 100)
  else 0

/-- `recovery_rate` (line 110). -/
def recovery_rate (df : List Row) : ℚ :=
  if confirmed_cases df > 0 then
    pyRound1 ((kpiRecoveries df : ℚ) / (confirmed_cases df : ℚ) * 100)
  else 0

/-- Pandas `Series.nunique()`: number of distinct non-null entries. -/
def nunique (l : List (Option String)) : Nat := (l.filterMap id).dedup.length

/-- `states_affected = df[State].nunique()` (line 112). -/
def states_affected (df : List Row) : Nat := nunique (df.map (·.state))

/-- `lgas_affected = df[LGA].nunique()` (line 113). -/
def lgas_affected (df : List Row) : Nat := nunique (df.map (·.lga))

/- ---------------------------------------------------------------
   Demographics breakdown (src/main.py lines 116-128).
   --------------------------------------------------------------- -/

/-- One element of the list produced by `build_breakdown`. -/
structure BreakdownRow where
  category : String
  count : Nat
  percentage : ℚ
deriving DecidableEq, Repr

/-- `series.value_counts()`: one `(value, count)` pair per distinct
entry, ordered by descending count (`mergeSort` is stable, matching
the implementation-defined tie order only up to reordering; no stated
property depends on the tie order).  The AgeGroup and Gender columns
it is applied to never hold `NaN`, so `dropna` discards nothing. -/
def value_counts (values : List String) : List (String × Nat) :=
  (values.dedup.map fun v => (v, values.count v)).mergeSort
    fun a b => decide (b.2 ≤ a.2)

/-- `build_breakdown(series, total)` (src/main.py lines 116-125). -/
def build_breakdown (values : List String) (total : Nat) : List BreakdownRow :=
  (value_counts values).map fun vc =>
    ⟨vc.1, vc.2, pyRound1 ((vc.2 : ℚ) / (total : ℚ) * 100)⟩

/-- The derived `AgeGroup` column. -/
def ageGroupCol (df : List Row) : List String :=
  df.map fun r => get_age_group r.age

/-- The derived `Gender` column. -/
def genderCol (df : List Row) : List String :=
  df.map fun r => gender r.sex

/-- `age_breakdown = build_breakdown(df[AgeGroup], total_cases)`. -/
def age_breakdown (df : List Row) : List BreakdownRow :=
  build_breakdown (ageGroupCol df) (total_cases df)

/-- `gender_breakdown = build_breakdown(df[Gender], total_cases)`. -/
def gender_breakdown (df : List Row) : List BreakdownRow :=
  build_breakdown (genderCol df) (total_cases df)

/- ---------------------------------------------------------------
   Geographic breakdown (src/main.py lines 131-151).
   `groupby([LGA, State], dropna=False)` keeps null keys as their own
   groups and (with the default `sort=True`) orders the group keys,
   placing nulls last.
   --------------------------------------------------------------- -/

/-- Key order used by pandas on one nullable string component:
nulls sort last. -/
def optStrLE : Option String → Option String → Bool
  | none, none => true
  | none, some _ => false
  | some _, none => true
  | some a, some b => decide (a ≤ b)

/-- Lexicographic order on the `(LGA, State)` group key. -/
def lgaKeyLE (a b : Option String × Option String) : Bool :=
  if a.1 = b.1 then optStrLE a.2 b.2 else optStrLE a.1 b.1

/-- The `(LGA, State)` key of one row. -/
def lgaKey (r : Row) : Option String × Option String := (r.lga, r.state)

/-- The group keys of `df.groupby([LGA, State], dropna=False)`,
one per distinct `(LGA, State)` pair, in sorted order. -/
def lgaKeys (df : List Row) : List (Option String × Option String) :=
  ((df.map lgaKey).dedup).mergeSort lgaKeyLE

/-- The rows of one `(LGA, State)` group. -/
def lgaGroupRows (df : List Row) (k : Option String × Option String) :
    List Row :=
  df.filter fun r => lgaKey r = k

/-- One row of `lga_agg` joined with its `lga_summary` post-processing
(src/main.py lines 131-151).  `cases=(Patient_ID, count)` counts the
non-null Patient_ID entries of the group; the `deaths` and
`recoveries` lambdas count over every row of the group. -/
structure LgaRow where
  lga : String
  state : String
  cases : Nat
  deaths : Nat
  recoveries : Nat
  recovery_rate_percent : Int
  last_update : Option PDate
  year : Option Int
deriving DecidableEq, Repr

/-- Pandas `max` aggregation over the parsed `Last_Update` values of a
group: skips nulls, `NaT` (here `none`) when none parse. -/
def maxPDate (l : List PDate) : Option PDate :=
  l.foldl (fun acc d =>
    match acc with
    | none => some d
    | some m => if m.ts < d.ts then some d else some m) none

/-- Pandas `max` aggregation over the `Year` column of a group. -/
def maxYear (l : List Int) : Option Int :=
  l.foldl (fun acc y =>
    match acc with
    | none => some y
    | some m => if m < y then some y else some m) none

/-- The aggregated output row of one `(LGA, State)` group, including
the `str(...) if pd.notna(...) else "Unknown"` rendering of the keys
and the integer `recovery_rate_percent` (src/main.py lines 140-151). -/
def lgaAggRow (df : List Row) (k : Option String × Option String) :
    LgaRow :=
  let g := lgaGroupRows df k
  let cases := g.countP fun r => r.patientID.isSome
  let deaths := g.countP fun r => r.outcome = some "Deceased"
  let recoveries := g.countP fun r => r.outcome = some "Discharged"
  { lga := match k.1 with | some v => v | none => "Unknown"
    state := match k.2 with | some v => v | none => "Unknown"
    cases := cases
    deaths := deaths
    recoveries := recoveries
    recovery_rate_percent :=
      if cases > 0 then pyRoundInt ((recoveries : ℚ) / (cases : ℚ) * 100)
      else 0
    last_update := maxPDate (g.filterMap (·.lastUpdate))
    year := maxYear (g.filterMap yearCol) }

/-- The `lga_breakdown` list of the response. -/
def lga_breakdown (df : List Row) : List LgaRow :=
  (lgaKeys df).map (lgaAggRow df)

/- ---------------------------------------------------------------
   Weekly trend (src/main.py lines 154-172).  The grouping key is the
   `YearWeek` string column, which is never null, so no row is dropped;
   line 162 then sorts the grouped table by the key string.
   --------------------------------------------------------------- -/

/-- One row of the `weekly_trend` output list. -/
structure WeeklyRow where
  year_week : String
  total_cases : Nat
  confirmed_cases : Nat
  deaths : Nat
  recoveries : Nat
deriving DecidableEq, Repr

/-- The rows of one `YearWeek` group. -/
def weeklyGroupRows (df : List Row) (k : String) : List Row :=
  df.filter fun r => yearWeek df r = k

/-- The aggregated output row of one `YearWeek` group
(src/main.py lines 154-159): `total_cases=(Patient_ID, count)` counts
non-null Patient_ID entries; the three lambdas count over all rows. -/
def weeklyAggRow (df : List Row) (k : String) : WeeklyRow :=
  let g := weeklyGroupRows df k
  { year_week := k
    total_cases := g.countP fun r => r.patientID.isSome
    confirmed_cases := g.countP fun r => r.caseStatus = some "Confirmed"
    deaths := g.countP fun r => r.outcome = some "Deceased"
    recoveries := g.countP fun r => r.outcome = some "Discharged" }

/-- The distinct `YearWeek` keys, sorted ascending by the key string
(`sort_values(YearWeek)` on line 162; the `groupby` default sort makes
the list sorted already, the explicit sort is what the output order
rests on). -/
def weeklyKeys (df : List Row) : List String :=
  ((df.map fun r => yearWeek df r).dedup).mergeSort
    fun a b => decide (a.data ≤ b.data)

/-- The `weekly_trend` list of the response. -/
def weekly_trend (df : List Row) : List WeeklyRow :=
  (weeklyKeys df).map (weeklyAggRow df)

/- ---------------------------------------------------------------
   Response assembly and the error path (src/main.py lines 27-45 and
   56-199).  File access and CSV parsing are external effects; they
   enter the model as an abstract `FileSystem` describing whether the
   file exists and how parsing it turned out.
   --------------------------------------------------------------- -/

/-- The KPI block of the response. -/
structure Kpi where
  confirmed_cases : Nat
  recoveries : Nat
  deaths : Nat
  fatality_rate_percent : ℚ
  recovery_rate_percent : ℚ
  states_affected : Nat
  lgas_affected : Nat
deriving DecidableEq, Repr

/-- The full `/summary` response body (the wall-clock `generated_at`
metadata field is outside the model). -/
structure Summary where
  total_records : Nat
  kpi : Kpi
  age_groups : List BreakdownRow
  gender : List BreakdownRow
  lga_breakdown : List LgaRow
  weekly_trend : List WeeklyRow
deriving DecidableEq, Repr

/-- The successful computation of `get_summary` on a validated table. -/
def buildSummary (df : List Row) : Summary :=
  { total_records := total_cases df
    kpi :=
      { confirmed_cases := confirmed_cases df
        recoveries := kpiRecoveries df
        deaths := kpiDeaths df
        fatality_rate_percent := fatality_rate df
        recovery_rate_percent := recovery_rate df
        states_affected := states_affected df
        lgas_affected := lgas_affected df }
    age_groups := age_breakdown df
    gender := gender_breakdown df
    lga_breakdown := lga_breakdown df
    weekly_trend := weekly_trend df }

/-- A raw parsed CSV: its header columns and its rows. -/
structure RawCsv where
  columns : List String
  rows : List Row

/-- Abstract state of the external world for one request: whether the
data file exists, and the outcome of `pd.read_csv` were it attempted. -/
structure FileSystem where
  fileExists : Bool
  parse : Except String RawCsv

/-- The configured data file path (`DATA_FILE`). -/
def dataFile : String := "extended_patient_outbreak_dataset_5000_diverse.csv"

/-- The required-column set of `load_and_validate_data` (lines 37-40). -/
def requiredColumns : List String :=
  ["Patient_ID", "Age", "Sex", "Outcome", "State", "LGA",
   "Case_Status", "Last_Update"]

/-- Rendering of the missing-column set inside the f-string of line 43,
matching the Python `set` repr `\x7b...\x7d` with quoted elements. -/
def fmtSetGo : List String → String
  | [] => ""
  | [c] => "\x27" ++ c ++ "\x27"
  | c :: rest => "\x27" ++ c ++ "\x27, " ++ fmtSetGo rest

/-- Python `str` of a set of column names. -/
def fmtSet (l : List String) : String := "\x7b" ++ fmtSetGo l ++ "\x7d"

/-- `load_and_validate_data` (src/main.py lines 27-45), with the three
failure kinds as `Except.error` messages. -/
def load_and_validate_data (fs : FileSystem) : Except String (List Row) :=
  if !fs.fileExists then
    .error ("Data file not found: " ++ dataFile)
  else
    match fs.parse with
    | .error e => .error ("Error reading CSV file: " ++ e)
    | .ok csv =>
      let missing := requiredColumns.filter fun c => ¬ csv.columns.contains c
      if missing.isEmpty then .ok csv.rows
      else .error ("Missing required columns: " ++ fmtSet missing)

/-- An HTTP error response: status code and detail string. -/
structure HttpError where
  status : Nat
  detail : String
deriving DecidableEq, Repr

/-- `get_summary` (src/main.py lines 56-199): every exception escaping
the body — in this model, exactly the `load_and_validate_data`
failures, the computation itself being total — is re-raised as
`HTTPException(status_code=500, detail="Aggregation failed: ...")`. -/
def get_summary (fs : FileSystem) : Except HttpError Summary :=
  match load_and_validate_data fs with
  | .error e => .error ⟨500, "Aggregation failed: " ++ e⟩
  | .ok df => .ok (buildSummary df)

/- ---------------------------------------------------------------
   Concrete sample tables used to instantiate the statements.
   --------------------------------------------------------------- -/

/-- A fully populated confirmed-and-deceased row whose `Last_Update`
parsed to ISO week 2 of 2024 (for example `2024-01-10`). -/
def rowGood : Row :=
  ⟨some "p1", some 10, some "m", some "Deceased", some "X", some "Y",
   some "Confirmed", some ⟨2024, 2, 100⟩⟩

/-- A suspected row whose `Last_Update` failed to parse (`NaT`) and
whose Age and Sex are missing. -/
def rowBad : Row :=
  ⟨some "p2", none, none, some "Discharged", some "X", some "Z",
   some "Suspected", none⟩

/-- A two-row table with one parseable and one unparseable date. -/
def dfEx : List Row := [rowGood, rowBad]

/-- A single non-confirmed deceased row. -/
def rowSusp : Row :=
  ⟨some "p3", some 30, some "f", some "Deceased", some "S", some "L",
   some "Suspected", none⟩

/-- A table on which the geographic death count and the KPI death
count differ. -/
def dfDiverge : List Row := [rowSusp]

/-- A single confirmed row whose `Patient_ID` cell is missing. -/
def rowNoID : Row :=
  ⟨none, some 5, some "m", some "Discharged", some "S", some "L",
   some "Confirmed", none⟩

/-- A one-row table whose only `Patient_ID` is null. -/
def dfNoID : List Row := [rowNoID]

/- ---------------------------------------------------------------
   General-purpose lemmas.
   --------------------------------------------------------------- -/

/-- Summing an indicator over a duplicate-free list containing `a`
picks out exactly the one term at `a`. -/
theorem sum_map_ite_eq {κ : Type} [DecidableEq κ] (a : κ) (n : ℕ) :
    ∀ ks : List κ, ks.Nodup → a ∈ ks →
      (ks.map fun k => if a = k then n else 0).sum = n := by
  intro ks
  induction ks with
  | nil => intro _ h; cases h
  | cons b t ih =>
    intro hnd hmem
    rcases List.mem_cons.mp hmem with hb | ht
    · subst hb
      have hnot : a ∉ t := (List.nodup_cons.mp hnd).1
      have hz : (t.map fun k => if a = k then n else 0).sum = 0 :=
        List.sum_eq_zero (by
          intro _ hx
          rcases List.mem_map.mp hx with ⟨k, hk, rfl⟩
          have : a ≠ k := fun h => hnot (h ▸ hk)
          simp [this])
      simp [hz]
    · have hne : a ≠ b := fun h => (List.nodup_cons.mp hnd).1 (h ▸ ht)
      simp [hne, ih (List.nodup_cons.mp hnd).2 ht]

/-- Counting with `p` over a list equals the sum, over any
duplicate-free list of keys covering the image of `f`, of the counts
inside each fiber of `f`. -/
theorem countP_partition {α κ : Type} [DecidableEq κ]
    (f : α → κ) (p : α → Bool) :
    ∀ (l : List α) (ks : List κ), ks.Nodup → (∀ x ∈ l, f x ∈ ks) →
      (ks.map fun k => (l.filter fun x => f x = k).countP p).sum
        = l.countP p := by
  intro l
  induction l with
  | nil =>
    intro ks _ _
    simp [List.sum_eq_zero]
  | cons a t ih =>
    intro ks hnd hcov
    have hstep : ∀ k : κ,
        ((a :: t).filter fun x => f x = k).countP p
          = (if f a = k then (if p a then 1 else 0) else 0)
            + ((t.filter fun x => f x = k).countP p) := by
      intro k
      by_cases h : f a = k
      · simp [List.filter_cons, h, List.countP_cons, Nat.add_comm]
      · simp [List.filter_cons, h]
    calc (ks.map fun k => ((a :: t).filter fun x => f x = k).countP p).sum
        = (ks.map fun k =>
            (if f a = k then (if p a then 1 else 0) else 0)
              + ((t.filter fun x => f x = k).countP p)).sum := by
          exact congrArg List.sum (List.map_congr_left fun k _ => hstep k)
      _ = (ks.map fun k =>
            if f a = k then (if p a then 1 else 0) else 0).sum
            + (ks.map fun k => ((t.filter fun x => f x = k).countP p)).sum := by
          rw [← List.sum_map_add]
      _ = (if p a then 1 else 0) + t.countP p := by
          rw [sum_map_ite_eq (f a) _ ks hnd (hcov a (List.mem_cons_self a t)),
            ih ks hnd (fun x hx => hcov x (List.mem_cons_of_mem a hx))]
      _ = (a :: t).countP p := by
          rw [List.countP_cons, Nat.add_comm]

/-- Specialisation: the keys are the deduplicated images under `f`. -/
theorem countP_partition_dedup {α κ : Type} [DecidableEq κ]
    (f : α → κ) (p : α → Bool) (l : List α) :
    ((l.map f).dedup.map fun k => (l.filter fun x => f x = k).countP p).sum
      = l.countP p :=
  countP_partition f p l (l.map f).dedup (List.nodup_dedup _)
    (fun _ hx => List.mem_dedup.mpr (List.mem_map_of_mem f hx))

/-- Sorting the keys does not change a sum taken over them. -/
theorem sum_map_mergeSort {κ : Type} (le : κ → κ → Bool) (g : κ → ℕ)
    (ks : List κ) :
    ((ks.mergeSort le).map g).sum = (ks.map g).sum :=
  ((List.mergeSort_perm ks le).map g).sum_eq

/-- Round-half-to-even never goes below a lower integer bound. -/
theorem pyRoundInt_nonneg {q : ℚ} (h : 0 ≤ q) : 0 ≤ pyRoundInt q := by
  have hf : (0 : ℤ) ≤ ⌊q⌋ := by
    rw [Int.le_floor]
    exact_mod_cast h
  unfold pyRoundInt
  split
  · exact hf
  · split
    · omega
    · split
      · exact hf
      · omega

/-- Round-half-to-even never exceeds an integer upper bound. -/
theorem pyRoundInt_le {q : ℚ} {B : ℤ} (h : q ≤ B) : pyRoundInt q ≤ B := by
  have hf : ⌊q⌋ ≤ B := by
    calc ⌊q⌋ ≤ ⌊(B : ℚ)⌋ := Int.floor_le_floor h
      _ = B := Int.floor_intCast B
  have hstrict : (1 : ℚ)/2 ≤ q - (⌊q⌋ : ℚ) → ⌊q⌋ + 1 ≤ B := by
    intro hr
    have hlt : (⌊q⌋ : ℚ) < q := by linarith
    have : (⌊q⌋ : ℚ) < (B : ℚ) := lt_of_lt_of_le hlt h
    exact_mod_cast Int.add_one_le_of_lt (by exact_mod_cast this)
  unfold pyRoundInt
  split
  · exact hf
  · rename_i h1
    push_neg at h1
    split
    · exact hstrict h1
    · split
      · exact hf
      · exact hstrict h1

/-- One-decimal rounding stays non-negative on non-negative input. -/
theorem pyRound1_nonneg {q : ℚ} (h : 0 ≤ q) : 0 ≤ pyRound1 q := by
  unfold pyRound1
  have : (0 : ℤ) ≤ pyRoundInt (q * 10) :=
    pyRoundInt_nonneg (by positivity)
  have h10 : (0 : ℚ) ≤ (pyRoundInt (q * 10) : ℚ) := by exact_mod_cast this
  positivity

/-- One-decimal rounding stays at most 100 on input at most 100. -/
theorem pyRound1_le_100 {q : ℚ} (h : q ≤ 100) : pyRound1 q ≤ 100 := by
  unfold pyRound1
  have h1 : q * 10 ≤ ((1000 : ℤ) : ℚ) := by push_cast; linarith
  have h2 : pyRoundInt (q * 10) ≤ 1000 := pyRoundInt_le h1
  have h3 : (pyRoundInt (q * 10) : ℚ) ≤ 1000 := by exact_mod_cast h2
  linarith

/-- The ratio `count-of-subset / total × 100` lies in `[0, 100]`. -/
theorem ratio_bounds {d c : ℕ} (hd : d ≤ c) (hc : 0 < c) :
    0 ≤ (d : ℚ) / (c : ℚ) * 100 ∧ (d : ℚ) / (c : ℚ) * 100 ≤ 100 := by
  have hc' : (0 : ℚ) < (c : ℚ) := by exact_mod_cast hc
  constructor
  · positivity
  · have hdc : (d : ℚ) / (c : ℚ) ≤ 1 :=
      (div_le_one hc').mpr (by exact_mod_cast hd)
    linarith

/-- A rate of the shape used by the KPI block is in `[0, 100]`. -/
theorem rate_in_range {d c : ℕ} (hd : d ≤ c) (q : ℚ)
    (hq : q = if 0 < c then pyRound1 ((d : ℚ) / (c : ℚ) * 100) else 0) :
    0 ≤ q ∧ q ≤ 100 := by
  subst hq
  by_cases hc : 0 < c
  · obtain ⟨h0, h100⟩ := ratio_bounds hd hc
    simp only [hc, if_pos]
    exact ⟨pyRound1_nonneg h0, pyRound1_le_100 h100⟩
  · simp [hc]

/-- Sum of the reported counts of a demographic breakdown: it is the
length of the underlying column. -/
theorem breakdown_count_sum (values : List String) (total : Nat) :
    ((build_breakdown values total).map (·.count)).sum = values.length := by
  unfold build_breakdown value_counts
  rw [List.map_map]
  have h1 : ((fun b : BreakdownRow => b.count) ∘ fun vc : String × Nat =>
      BreakdownRow.mk vc.1 vc.2 (pyRound1 ((vc.2 : ℚ) / (total : ℚ) * 100)))
      = fun vc : String × Nat => vc.2 := rfl
  rw [h1, sum_map_mergeSort, List.map_map]
  exact List.sum_map_count_dedup_eq_length values

/-- Characters of a concatenation. -/
theorem data_append : ∀ a b : String, (a ++ b).data = a.data ++ b.data
  | ⟨_⟩, ⟨_⟩ => rfl

/-- Every element of the rendered missing-column set occurs verbatim
inside the rendered string. -/
theorem fmtSetGo_mem (c : String) :
    ∀ ms : List String, c ∈ ms →
      ∃ pre post, (fmtSetGo ms).data = pre ++ c.data ++ post
  | [], h => absurd h (List.not_mem_nil c)
  | [x], h => by
    rcases List.mem_singleton.mp h with rfl
    exact ⟨"\x27".data, "\x27".data, by simp [fmtSetGo, data_append]⟩
  | x :: y :: rest, h => by
    rcases List.mem_cons.mp h with rfl | ht
    · refine ⟨"\x27".data, ("\x27, " ++ fmtSetGo (y :: rest)).data, ?_⟩
      simp [fmtSetGo, data_append, List.append_assoc]
    · obtain ⟨pre, post, hp⟩ := fmtSetGo_mem c (y :: rest) ht
      refine ⟨("\x27" ++ x ++ "\x27, ").data ++ pre, post, ?_⟩
      simp [fmtSetGo, data_append, hp, List.append_assoc]

/- ---------------------------------------------------------------
   Claim theorems.
   --------------------------------------------------------------- -/

/-- C2: the claim says a Sex value equal to the textual representation
of null is mapped to Other/Unknown, and an unmapped empty value
likewise.  The code titlecases before applying the replacement
dictionary, so the lowercase key never matches: a missing Sex (and the
literal string nan) comes out as the string `Nan`, and an empty Sex
stays the empty string.  This theorem evaluates the embedded Gender
derivation at those failing inputs. -/
theorem spec_C2_code_bug :
    gender none = "Nan" ∧
    gender (some "nan") = "Nan" ∧
    gender (some "") = "" ∧
    gender none ≠ "Other/Unknown" ∧
    gender (some " m ") = "Male" ∧
    gender (some "FEMALE.") = "Female" := by
  refine ⟨rfl, rfl, rfl, by decide, rfl, rfl⟩

/-- C3: both KPI rates lie in `[0, 100]`; they are `0` when there are
no confirmed cases, and otherwise are exactly the one-decimal rounding
of the corresponding ratio times 100. -/
theorem spec_C3 (df : List Row) :
    0 ≤ fatality_rate df ∧ fatality_rate df ≤ 100 ∧
    0 ≤ recovery_rate df ∧ recovery_rate df ≤ 100 ∧
    (confirmed_cases df = 0 → fatality_rate df = 0 ∧ recovery_rate df = 0) ∧
    (0 < confirmed_cases df →
      fatality_rate df
        = pyRound1 ((kpiDeaths df : ℚ) / (confirmed_cases df : ℚ) * 100) ∧
      recovery_rate df
        = pyRound1 ((kpiRecoveries df : ℚ) / (confirmed_cases df : ℚ) * 100)) := by
  have hd : kpiDeaths df ≤ confirmed_cases df := List.countP_le_length _
  have hr : kpiRecoveries df ≤ confirmed_cases df := List.countP_le_length _
  have hf := rate_in_range hd (fatality_rate df) rfl
  have hg := rate_in_range hr (recovery_rate df) rfl
  refine ⟨hf.1, hf.2, hg.1, hg.2, ?_, ?_⟩
  · intro h0
    constructor <;> simp [fatality_rate, recovery_rate, h0]
  · intro hpos
    constructor <;> simp [fatality_rate, recovery_rate, hpos]

/-- Witness for C3: on the sample table (one confirmed deceased case)
the positive branch applies, and on the empty table the rates are 0. -/
theorem spec_C3_witness :
    (0 < confirmed_cases dfEx ∧
      fatality_rate dfEx
        = pyRound1 ((kpiDeaths dfEx : ℚ) / (confirmed_cases dfEx : ℚ) * 100)) ∧
    (confirmed_cases ([] : List Row) = 0 ∧
      fatality_rate ([] : List Row) = 0) :=
  ⟨⟨by decide, ((spec_C3 dfEx).2.2.2.2.2 (by decide)).1⟩,
   ⟨rfl, ((spec_C3 ([] : List Row)).2.2.2.2.1 rfl).1⟩⟩

/-- C4: the age bucketing — null ages fall into Other/Unknown, ages up
to 14 into 0-14, ages above 14 and up to 49 into 15-49, the rest into
50+; boundary ages 14 and 49 land in the lower buckets. -/
theorem spec_C4 :
    get_age_group none = "Other/Unknown" ∧
    ∀ a : ℚ,
      (a ≤ 14 → get_age_group (some a) = "0-14") ∧
      (14 < a → a ≤ 49 → get_age_group (some a) = "15-49") ∧
      (49 < a → get_age_group (some a) = "50+") := by
  refine ⟨rfl, fun a => ⟨?_, ?_, ?_⟩⟩
  · intro h
    simp [get_age_group, h]
  · intro h1 h2
    have : ¬ a ≤ 14 := not_le.mpr h1
    simp [get_age_group, this, h2]
  · intro h
    have h1 : ¬ a ≤ 14 := not_le.mpr (lt_trans (by norm_num) h)
    have h2 : ¬ a ≤ 49 := not_le.mpr h
    simp [get_age_group, h1, h2]

/-- Witness for C4: boundary ages 14, 49 and an age of 50. -/
theorem spec_C4_witness :
    get_age_group (some 14) = "0-14" ∧
    get_age_group (some 49) = "15-49" ∧
    get_age_group (some 50) = "50+" :=
  ⟨(spec_C4.2 14).1 (by norm_num),
   (spec_C4.2 49).2.1 (by norm_num) (by norm_num),
   (spec_C4.2 50).2.2 (by norm_num)⟩

/-- C6: on a non-empty table the per-category counts of the age-group
breakdown sum to `total_cases`, and likewise for the gender
breakdown. -/
theorem spec_C6 (df : List Row) (_hne : df ≠ []) :
    ((age_breakdown df).map (·.count)).sum = total_cases df ∧
    ((gender_breakdown df).map (·.count)).sum = total_cases df := by
  constructor
  · rw [age_breakdown, breakdown_count_sum]
    simp [ageGroupCol, total_cases]
  · rw [gender_breakdown, breakdown_count_sum]
    simp [genderCol, total_cases]

/-- Witness for C6: the two-row sample table is non-empty and its
age-group counts sum to its total. -/
theorem spec_C6_witness :
    dfEx ≠ [] ∧
    ((age_breakdown dfEx).map (·.count)).sum = total_cases dfEx :=
  ⟨List.cons_ne_nil _ _, (spec_C6 dfEx (List.cons_ne_nil _ _)).1⟩

/-- C7: the weekly trend list is sorted ascending by the `year_week`
string, hence consecutive rows are non-decreasing. -/
theorem spec_C7 (df : List Row) :
    (weekly_trend df).Pairwise fun a b => a.year_week ≤ b.year_week := by
  unfold weekly_trend weeklyKeys
  rw [List.pairwise_map]
  refine (List.sorted_mergeSort ?_ ?_
    ((df.map fun r => yearWeek df r).dedup)).imp
      fun {a b} hab => String.le_iff_toList_le.mpr (of_decide_eq_true hab)
  · intro a b c hab hbc
    simp only [decide_eq_true_eq] at *
    exact le_trans hab hbc
  · intro a b
    simpa [Bool.or_eq_true, decide_eq_true_eq] using le_total a.data b.data

/-- C8: `states_affected` is the number of distinct non-null State
values and `lgas_affected` the number of distinct non-null LGA
values. -/
theorem spec_C8 (df : List Row) :
    states_affected df = ((df.map (·.state)).filterMap id).toFinset.card ∧
    lgas_affected df = ((df.map (·.lga)).filterMap id).toFinset.card := by
  constructor
  · rw [states_affected, nunique, List.card_toFinset]
  · rw [lgas_affected, nunique, List.card_toFinset]

/-- C5: in each geographic group the death and recovery counts range
over every row of the group with the matching Outcome, with no
Case_Status restriction, while the top-level KPI counts only confirmed
rows; on the one-row sample table whose only case is suspected and
deceased, the group reports one death while the KPI reports none. -/
theorem spec_C5 (df : List Row) :
    (∀ k ∈ lgaKeys df,
      (lgaAggRow df k).deaths
        = (lgaGroupRows df k).countP (fun r => r.outcome = some "Deceased") ∧
      (lgaAggRow df k).recoveries
        = (lgaGroupRows df k).countP (fun r => r.outcome = some "Discharged")) ∧
    kpiDeaths df
      = (confirmedRows df).countP (fun r => r.outcome = some "Deceased") ∧
    kpiRecoveries df
      = (confirmedRows df).countP (fun r => r.outcome = some "Discharged") ∧
    ((lga_breakdown dfDiverge).map (·.deaths) = [1] ∧
      kpiDeaths dfDiverge = 0) := by
  refine ⟨fun k _ => ⟨rfl, rfl⟩, rfl, rfl, ?_, by decide⟩
  have hd : (dfDiverge.map lgaKey).dedup = [(some "L", some "S")] := by decide
  rw [lga_breakdown, lgaKeys, hd, List.mergeSort_singleton]
  decide

/-- Witness for C5: the single group of the sample table, with its
membership hypothesis discharged. -/
theorem spec_C5_witness :
    (some "L", some "S") ∈ lgaKeys dfDiverge ∧
    (lgaAggRow dfDiverge (some "L", some "S")).deaths
      = (lgaGroupRows dfDiverge (some "L", some "S")).countP
          (fun r => r.outcome = some "Deceased") := by
  have hmem : (some "L", some "S") ∈ lgaKeys dfDiverge := by
    rw [lgaKeys]
    exact List.mem_mergeSort.mpr (by decide)
  exact ⟨hmem, ((spec_C5 dfDiverge).1 _ hmem).1⟩

/-- C10 counterexample: on a one-row table whose `Patient_ID` is null,
the geographic `cases` sum is 0 while `total_records` is 1, because
the pandas `count` aggregation skips null `Patient_ID` entries; so the
claimed equality with `total_records` fails. -/
theorem spec_C10_counterexample :
    ((lga_breakdown dfNoID).map (·.cases)).sum = 0 ∧
    total_cases dfNoID = 1 := by
  have hd : (dfNoID.map lgaKey).dedup = [(some "L", some "S")] := by decide
  constructor
  · rw [lga_breakdown, lgaKeys, hd, List.mergeSort_singleton]
    decide
  · rfl

/-- C10 as amended: the geographic grouping partitions the table —
the key list is duplicate-free, the key of every row occurs in it, and null
LGA or State keys are kept and reported as `Unknown` — so the `cases`
fields sum to the number of rows with a non-null `Patient_ID`, which
equals `total_records` exactly when every row has a `Patient_ID`. -/
theorem spec_C10 (df : List Row) :
    ((lga_breakdown df).map (·.cases)).sum
      = df.countP (fun r => r.patientID.isSome) ∧
    ((∀ r ∈ df, r.patientID.isSome) →
      ((lga_breakdown df).map (·.cases)).sum = total_cases df) ∧
    (lgaKeys df).Nodup ∧
    (∀ r ∈ df, lgaKey r ∈ lgaKeys df) ∧
    (∀ s, (lgaAggRow df (none, s)).lga = "Unknown") ∧
    (∀ l, (lgaAggRow df (l, none)).state = "Unknown") := by
  have hsum : ((lga_breakdown df).map (·.cases)).sum
      = df.countP (fun r => r.patientID.isSome) := by
    rw [lga_breakdown, lgaKeys, List.map_map]
    have h1 : ((fun x : LgaRow => x.cases) ∘ lgaAggRow df)
        = fun k => (lgaGroupRows df k).countP
            (fun r => r.patientID.isSome) := rfl
    rw [h1, sum_map_mergeSort]
    exact countP_partition_dedup lgaKey (fun r => r.patientID.isSome) df
  refine ⟨hsum, ?_, ?_, ?_, fun s => rfl, fun l => rfl⟩
  · intro hall
    rw [hsum, total_cases]
    exact List.countP_eq_length.mpr fun r hr => by
      simpa using hall r hr
  · rw [lgaKeys]
    exact ((List.mergeSort_perm _ _).nodup_iff).mpr (List.nodup_dedup _)
  · intro r hr
    rw [lgaKeys]
    exact List.mem_mergeSort.mpr
      (List.mem_dedup.mpr (List.mem_map_of_mem lgaKey hr))

/-- Witness for C10: on the two-row sample table every `Patient_ID` is
present and the `cases` fields sum to `total_records`. -/
theorem spec_C10_witness :
    (∀ r ∈ dfEx, r.patientID.isSome) ∧
    ((lga_breakdown dfEx).map (·.cases)).sum = total_cases dfEx :=
  ⟨by decide, (spec_C10 dfEx).2.1 (by decide)⟩

/-- C1 counterexample: on the two-row sample table — one parseable
date, one not — the weekly trend holds a row keyed by the literal
string `nan-W<NA>`, produced from the unparseable row, and that group
is non-empty; moreover the presence of a `NaT` makes the parseable
key print as `2024.0-W02`.  So a record with unparseable `Last_Update`
is not excluded from the weekly grouping, and not every `year_week`
key comes from a parseable date, contrary to the claim. -/
theorem spec_C1_counterexample :
    (weekly_trend dfEx).map (·.year_week) = ["2024.0-W02", "nan-W<NA>"] ∧
    rowBad ∈ dfEx ∧
    rowBad.lastUpdate = none ∧
    (weeklyAggRow dfEx "nan-W<NA>").total_cases = 1 := by
  have hd : (dfEx.map fun r => yearWeek dfEx r).dedup
      = ["2024.0-W02", "nan-W<NA>"] := by decide
  have hs : List.mergeSort ["2024.0-W02", "nan-W<NA>"]
        (fun a b : String => decide (a.data ≤ b.data))
      = ["2024.0-W02", "nan-W<NA>"] :=
    List.mergeSort_of_sorted (by decide)
  refine ⟨?_, List.mem_cons_of_mem _ (List.mem_cons_self _ _), rfl, by decide⟩
  rw [weekly_trend, weeklyKeys, hd, hs]
  decide

/-- C1 as amended: a record with unparseable `Last_Update` has null
`Year` but its `YearWeek` is the non-null literal string `nan-W<NA>`;
it is therefore kept by the weekly grouping — under that key — and it
is counted in `total_cases` and in the geographic grouping like every
other row. -/
theorem spec_C1 (df : List Row) (r : Row) (hr : r ∈ df)
    (hnone : r.lastUpdate = none) :
    yearCol r = none ∧
    yearWeek df r = "nan-W<NA>" ∧
    "nan-W<NA>" ∈ (weekly_trend df).map (·.year_week) ∧
    r ∈ weeklyGroupRows df "nan-W<NA>" ∧
    r ∈ lgaGroupRows df (lgaKey r) ∧
    total_cases df = df.length := by
  have hNaT : hasNaT df = true := by
    rw [hasNaT, List.any_eq_true]
    exact ⟨r, hr, by simp [hnone]⟩
  have hyw : yearWeek df r = "nan-W<NA>" := by
    rw [yearWeek, hNaT, hnone]
    rfl
  refine ⟨by simp [yearCol, hnone], hyw, ?_, ?_, ?_, rfl⟩
  · have hmap : (weekly_trend df).map (·.year_week) = weeklyKeys df := by
      rw [weekly_trend, List.map_map]
      exact List.map_id _
    rw [hmap, weeklyKeys]
    exact List.mem_mergeSort.mpr
      (List.mem_dedup.mpr (List.mem_map.mpr ⟨r, hr, hyw⟩))
  · rw [weeklyGroupRows]
    exact List.mem_filter.mpr ⟨hr, by simp [hyw]⟩
  · rw [lgaGroupRows]
    exact List.mem_filter.mpr ⟨hr, by simp⟩

/-- C9: every load/validation failure surfaces as a status-500 error
whose detail is the failure message prefixed with `Aggregation
failed: `, and a successful load yields the full summary (never a
partial result); when the parsed table misses a required column, the
error detail names that column verbatim. -/
theorem spec_C9 (fs : FileSystem) :
    (∀ msg, load_and_validate_data fs = .error msg →
      get_summary fs = .error ⟨500, "Aggregation failed: " ++ msg⟩) ∧
    (∀ rows, load_and_validate_data fs = .ok rows →
      get_summary fs = .ok (buildSummary rows)) ∧
    (∀ csv, fs.fileExists = true → fs.parse = .ok csv →
      ∀ c ∈ requiredColumns, c ∉ csv.columns →
      ∃ e, get_summary fs = .error e ∧ e.status = 500 ∧
        ∃ pre post, e.detail.data = pre ++ c.data ++ post) := by
  refine ⟨?_, ?_, ?_⟩
  · intro msg h
    rw [get_summary, h]
  · intro rows h
    rw [get_summary, h]
  · intro csv hex hparse c hreq hnot
    have hcm : c ∈ requiredColumns.filter
        (fun c => ¬ csv.columns.contains c) := by
      refine List.mem_filter.mpr ⟨hreq, ?_⟩
      simpa using hnot
    have hne : (requiredColumns.filter
        (fun c => ¬ csv.columns.contains c)).isEmpty = false := by
      rcases hfm : requiredColumns.filter
          (fun c => ¬ csv.columns.contains c) with _ | ⟨m, ms⟩
      · rw [hfm] at hcm
        cases hcm
      · rfl
    have hload : load_and_validate_data fs
        = .error ("Missing required columns: "
            ++ fmtSet (requiredColumns.filter
              (fun c => ¬ csv.columns.contains c))) := by
      rw [load_and_validate_data, hex, hparse]
      simp only [hne]
      simp [hne]
    obtain ⟨pre, post, hpp⟩ :=
      fmtSetGo_mem c (requiredColumns.filter
        (fun c => ¬ csv.columns.contains c)) hcm
    refine ⟨⟨500, "Aggregation failed: "
        ++ ("Missing required columns: "
          ++ fmtSet (requiredColumns.filter
            (fun c => ¬ csv.columns.contains c)))⟩, ?_, rfl,
      ("Aggregation failed: ".data ++ "Missing required columns: ".data
        ++ "\x7b".data) ++ pre, post ++ "\x7d".data, ?_⟩
    · rw [get_summary, hload]
    · simp only [fmtSet, data_append, List.append_assoc, hpp]

/-- Witness for C9: a parseable table providing only `Patient_ID`
yields a 500 error whose detail contains the missing column name
`Outcome`. -/
theorem spec_C9_witness :
    ∃ e, get_summary ⟨true, .ok ⟨["Patient_ID"], []⟩⟩ = .error e ∧
      e.status = 500 ∧
      ∃ pre post, e.detail.data = pre ++ "Outcome".data ++ post :=
  (spec_C9 ⟨true, .ok ⟨["Patient_ID"], []⟩⟩).2.2 ⟨["Patient_ID"], []⟩
    rfl rfl "Outcome" (by decide) (by decide)

/-- Witness for C1: the unparseable row of the sample table. -/
theorem spec_C1_witness :
    yearCol rowBad = none ∧
    yearWeek dfEx rowBad = "nan-W<NA>" ∧
    "nan-W<NA>" ∈ (weekly_trend dfEx).map (·.year_week) ∧
    rowBad ∈ weeklyGroupRows dfEx "nan-W<NA>" ∧
    rowBad ∈ lgaGroupRows dfEx (lgaKey rowBad) ∧
    total_cases dfEx = dfEx.length :=
  spec_C1 dfEx rowBad (List.mem_cons_of_mem _ (List.mem_cons_self _ _)) rfl

end Lassa
